import Mathlib

/-!
Verification of the voice-chatbot relay (server.py, realtime_client.py,
tools.py, collekto_data_fetcher.py).

The Python sources are embedded shallowly: the per-session mutable state of
`RealtimeClient` becomes a `Session` record, each method and each branch of
the upstream event loop becomes a pure state-transition function returning
the new state together with the list of observable actions (upstream sends
and callback invocations) it performs, and the byte-level base64 codec used
on both audio legs is implemented directly so that the audio round-trip can
be proved, not assumed.  Network I/O is modelled as the successful delivery
of the sends recorded in the action list; logging is dropped except where a
log line itself can raise (noted at the definition concerned).
-/

namespace VoiceBot

/-! ## Base64 (the codec used by `base64.b64encode` / `base64.b64decode`)

`server.py` decodes the client's `AudioData` payload with `base64.b64decode`
and `realtime_client.append_input_audio` re-encodes the chunk with
`base64.b64encode` before forwarding it upstream.  Bytes are embedded as
`Nat`s below 256, base64 text as `List Char` over the RFC 4648 alphabet. -/

/-- The standard base64 alphabet, as used by Python's `base64` module. -/
def b64Alphabet : List Char :=
  "ABCDEFGHIJKLMNOPQRSTUVWXYZabcdefghijklmnopqrstuvwxyz0123456789+/".toList

/-- Character encoding one 6-bit group. -/
def b64Tbl (n : Nat) : Char := b64Alphabet.getD n '='

/-- Position of a character in a list of characters (0 when absent). -/
def b64IndexAux (c : Char) : List Char → Nat
  | [] => 0
  | d :: rest => if d = c then 0 else b64IndexAux c rest + 1

/-- The 6-bit value a base64 character stands for. -/
def b64Index (c : Char) : Nat := b64IndexAux c b64Alphabet

/-- Encoding: `base64.b64encode` on a byte sequence: groups of three bytes become four
characters; a trailing group of one or two bytes is padded with `'='`. -/
def b64Encode : List Nat → List Char
  | [] => []
  | [a] => [b64Tbl (a / 4), b64Tbl (a % 4 * 16), '=', '=']
  | [a, b] => [b64Tbl (a / 4), b64Tbl (a % 4 * 16 + b / 16), b64Tbl (b % 16 * 4), '=']
  | a :: b :: c :: rest =>
      b64Tbl (a / 4) :: b64Tbl (a % 4 * 16 + b / 16) :: b64Tbl (b % 16 * 4 + c / 64) ::
        b64Tbl (c % 64) :: b64Encode rest

/-- Decoding: `base64.b64decode` on well-formed input: four characters yield three
bytes, with `'='` padding cutting the final group to one or two bytes.
Inputs shorter than a full group decode to `[]` (Python would raise; no
claim depends on malformed base64 text). -/
def b64Decode : List Char → List Nat
  | c1 :: c2 :: c3 :: c4 :: rest =>
      if c3 = '=' then [b64Index c1 * 4 + b64Index c2 / 16]
      else if c4 = '=' then
        [b64Index c1 * 4 + b64Index c2 / 16, b64Index c2 % 16 * 16 + b64Index c3 / 4]
      else
        (b64Index c1 * 4 + b64Index c2 / 16) :: (b64Index c2 % 16 * 16 + b64Index c3 / 4) ::
          (b64Index c3 % 4 * 64 + b64Index c4) :: b64Decode rest
  | _ => []

theorem b64Index_tbl_fin : ∀ s : Fin 64, b64Index (b64Tbl s.val) = s.val := by decide

theorem b64Index_tbl {s : Nat} (h : s < 64) : b64Index (b64Tbl s) = s :=
  b64Index_tbl_fin ⟨s, h⟩

theorem b64Tbl_ne_pad_fin : ∀ s : Fin 64, b64Tbl s.val ≠ '=' := by decide

theorem b64Tbl_ne_pad {s : Nat} (h : s < 64) : b64Tbl s ≠ '=' :=
  b64Tbl_ne_pad_fin ⟨s, h⟩

/-- Division helper: `(x * k + y) / k = x` when `y < k`. -/
theorem mul_add_div_small (k x y : Nat) (hk : 0 < k) (hy : y < k) : (x * k + y) / k = x := by
  rw [show x * k + y = k * x + y from by ring, Nat.mul_add_div hk, Nat.div_eq_of_lt hy]
  omega

/-- Remainder helper: `(x * k + y) % k = y` when `y < k`. -/
theorem mul_add_mod_small (k x y : Nat) (hy : y < k) : (x * k + y) % k = y := by
  rw [show x * k + y = k * x + y from by ring, Nat.mul_add_mod, Nat.mod_eq_of_lt hy]

/-- First byte of a decoded group comes back intact. -/
theorem b64_byte1 (a b : Nat) (ha : a < 256) (hb : b < 256) :
    a / 4 * 4 + (a % 4 * 16 + b / 16) / 16 = a := by
  rw [mul_add_div_small 16 (a % 4) (b / 16) (by norm_num) (by omega)]
  omega

/-- Second byte of a decoded group comes back intact. -/
theorem b64_byte2 (a b c : Nat) (hb : b < 256) (hc : c < 256) :
    (a % 4 * 16 + b / 16) % 16 * 16 + (b % 16 * 4 + c / 64) / 4 = b := by
  rw [mul_add_mod_small 16 (a % 4) (b / 16) (by omega),
    mul_add_div_small 4 (b % 16) (c / 64) (by norm_num) (by omega)]
  omega

/-- Third byte of a decoded group comes back intact. -/
theorem b64_byte3 (b c : Nat) (hc : c < 256) :
    (b % 16 * 4 + c / 64) % 4 * 64 + c % 64 = c := by
  rw [mul_add_mod_small 4 (b % 16) (c / 64) (by omega)]
  omega

/-- Decoding inverts encoding on every byte sequence: the relay loses no
audio bytes to the codec. -/
theorem b64_decode_encode : ∀ bytes : List Nat, (∀ b ∈ bytes, b < 256) →
    b64Decode (b64Encode bytes) = bytes
  | [], _ => by simp [b64Encode, b64Decode]
  | [a], h => by
      have ha : a < 256 := h a (by simp)
      have h1 : a / 4 < 64 := by omega
      have h2 : a % 4 * 16 < 64 := by omega
      show b64Decode [b64Tbl (a / 4), b64Tbl (a % 4 * 16), '=', '='] = [a]
      simp only [b64Decode, if_pos rfl, b64Index_tbl h1, b64Index_tbl h2]
      have e1 : a / 4 * 4 + a % 4 * 16 / 16 = a := by
        rw [Nat.mul_div_cancel _ (by norm_num : (0:ℕ) < 16)]
        omega
      rw [e1]
      simp
  | [a, b], h => by
      have ha : a < 256 := h a (by simp)
      have hb : b < 256 := h b (by simp)
      have h1 : a / 4 < 64 := by omega
      have h2 : a % 4 * 16 + b / 16 < 64 := by omega
      have h3 : b % 16 * 4 < 64 := by omega
      show b64Decode [b64Tbl (a / 4), b64Tbl (a % 4 * 16 + b / 16), b64Tbl (b % 16 * 4), '=']
        = [a, b]
      simp only [b64Decode, if_neg (b64Tbl_ne_pad h3), if_pos rfl,
        b64Index_tbl h1, b64Index_tbl h2, b64Index_tbl h3]
      have e1 : a / 4 * 4 + (a % 4 * 16 + b / 16) / 16 = a := b64_byte1 a b ha hb
      have e2 : (a % 4 * 16 + b / 16) % 16 * 16 + b % 16 * 4 / 4 = b := by
        rw [mul_add_mod_small 16 (a % 4) (b / 16) (by omega),
          Nat.mul_div_cancel _ (by norm_num : (0:ℕ) < 4)]
        omega
      rw [e1, e2]
      simp
  | [a, b, c], h => by
      have ha : a < 256 := h a (by simp)
      have hb : b < 256 := h b (by simp)
      have hc : c < 256 := h c (by simp)
      have h1 : a / 4 < 64 := by omega
      have h2 : a % 4 * 16 + b / 16 < 64 := by omega
      have h3 : b % 16 * 4 + c / 64 < 64 := by omega
      have h4 : c % 64 < 64 := by omega
      show b64Decode (b64Tbl (a / 4) :: b64Tbl (a % 4 * 16 + b / 16) ::
          b64Tbl (b % 16 * 4 + c / 64) :: b64Tbl (c % 64) :: b64Encode [])
        = [a, b, c]
      simp only [b64Decode, b64Encode, if_neg (b64Tbl_ne_pad h3), if_neg (b64Tbl_ne_pad h4),
        b64Index_tbl h1, b64Index_tbl h2, b64Index_tbl h3, b64Index_tbl h4]
      rw [b64_byte1 a b ha hb, b64_byte2 a b c hb hc, b64_byte3 b c hc]
  | a :: b :: c :: d :: rest, h => by
      have ha : a < 256 := h a (by simp)
      have hb : b < 256 := h b (by simp)
      have hc : c < 256 := h c (by simp)
      have h1 : a / 4 < 64 := by omega
      have h2 : a % 4 * 16 + b / 16 < 64 := by omega
      have h3 : b % 16 * 4 + c / 64 < 64 := by omega
      have h4 : c % 64 < 64 := by omega
      have hrest : ∀ x ∈ d :: rest, x < 256 := fun x hx =>
        h x (List.mem_cons_of_mem a (List.mem_cons_of_mem b (List.mem_cons_of_mem c hx)))
      have ih := b64_decode_encode (d :: rest) hrest
      show b64Decode (b64Tbl (a / 4) :: b64Tbl (a % 4 * 16 + b / 16) ::
          b64Tbl (b % 16 * 4 + c / 64) :: b64Tbl (c % 64) :: b64Encode (d :: rest))
        = a :: b :: c :: d :: rest
      simp only [b64Decode, if_neg (b64Tbl_ne_pad h3), if_neg (b64Tbl_ne_pad h4),
        b64Index_tbl h1, b64Index_tbl h2, b64Index_tbl h3, b64Index_tbl h4, ih]
      rw [b64_byte1 a b ha hb, b64_byte2 a b c hb hc, b64_byte3 b c hc]

/-! ## String helpers

Python's `in` operator on strings is substring containment; `str.strip()`
trims whitespace from both ends; `str.lower()` lowercases.  They are
implemented here directly over the character list. -/

/-- Python `str.strip()`: drop whitespace from both ends. -/
def pyStrip (s : String) : String :=
  String.mk (((s.data.dropWhile Char.isWhitespace).reverse.dropWhile Char.isWhitespace).reverse)

/-- Python `str.lower()`. -/
def pyLower (s : String) : String := String.mk (s.data.map Char.toLower)

/-- Substring test on character lists: the needle occurs at some position. -/
def containsAux (needle : List Char) : List Char → Bool
  | [] => needle.isEmpty
  | c :: rest => needle.isPrefixOf (c :: rest) || containsAux needle rest

/-- Python's `needle in hay` on strings. -/
def strContainsB (hay needle : String) : Bool := containsAux needle.toList hay.toList

/-- Serialization `json.dumps` on a plain string result ("payment completed",
"payment not completed", "Unknown tool"): wraps it in quotes.  None of the
strings serialized by the program needs escaping. -/
def jsonDumpsStr (s : String) : String := "\"" ++ s ++ "\""

/-! ## tools.py -/

/-- Embeds `tools.check_payment_status`: zero days past due means the last payment
went through. -/
def check_payment_status (DPD : Int) : String :=
  if DPD == 0 then "payment completed" else "payment not completed"

/-! ## realtime_client.py — the `RealtimeClient` session

Mutable attributes of one `RealtimeClient` instance.  `connection` stands
for `self.connection is not None`, `customer_data` for `self.customer_data`
restricted to what the event loop reads from it: `some` an association list
when it is a dict (only the numeric `"DPD"` entry is ever read), `none`
when it is not a dict.  The two callback slots are embedded as presence
flags; their invocations are recorded as actions.  `loop_failed` records
that the event loop's outer `except` caught an exception and the loop
ended. -/
structure Session where
  connection : Bool
  connected : Bool
  transcript : String
  chat_history : List (String × String)
  responding : Bool
  conversation_done : Bool
  pending_tool_calls : List (String × String)
  customer_data : Option (List (String × Int))
  audio_buffer : List (List Nat)
  has_response_handler : Bool
  has_audio_handler : Bool
  loop_failed : Bool
deriving DecidableEq, Repr

/-- Embeds `RealtimeClient.__init__` (the session fields; the constructor's debug
prints and the static session-config dict are not part of the state). -/
def initSession (session_data : Option (List (String × Int)))
    (response_handler audio_handler : Bool) : Session :=
  { connection := false
    connected := false
    transcript := ""
    chat_history := []
    responding := false
    conversation_done := false
    pending_tool_calls := []
    customer_data := session_data
    audio_buffer := []
    has_response_handler := response_handler
    has_audio_handler := audio_handler
    loop_failed := false }

/-- Messages sent to the upstream realtime API. -/
inductive UpSend where
  | audioAppend (audio : List Char)
  | audioCommit
  | responseCreate
  | functionCallOutput (call_id output : String)
  | userItemCreate (content : String)
deriving DecidableEq, Repr

/-- Observable effects of one step: an upstream send, or an invocation of
one of the two injected callbacks. -/
inductive OutAction where
  | send (m : UpSend)
  | textCallback (text : String)
  | audioCallback (bytes : List Nat)
deriving DecidableEq, Repr

/-- Embeds `RealtimeClient.connect`, success path: the connection handle is set
and `connected` becomes true.  (The failure paths are modelled separately
by `connect_config_check` below, which is what decides the error type the
caller sees.) -/
def connect_session (s : Session) : Session :=
  { s with connection := true, connected := true }

/-- Embeds `RealtimeClient.append_input_audio`: when a connection exists, the
chunk is re-encoded with `base64.b64encode` and sent as an
`input_audio_buffer.append`; otherwise nothing happens. -/
def append_input_audio (s : Session) (chunk : List Nat) : Session × List OutAction :=
  if s.connection then (s, [.send (.audioAppend (b64Encode chunk))]) else (s, [])

/-- Embeds `RealtimeClient.commit_audio`. -/
def commit_audio (s : Session) : Session × List OutAction :=
  if s.connection then (s, [.send .audioCommit]) else (s, [])

/-- Embeds `RealtimeClient.create_response`: guarded by the connection handle and
the `_responding` flag; sets the flag, then sends `response.create`.  The
send is modelled as succeeding (on a send exception the source clears the
flag again and sends nothing). -/
def create_response (s : Session) : Session × List OutAction :=
  if s.connection && !s.responding then
    ({ s with responding := true }, [.send .responseCreate])
  else (s, [])

/-- The literal conversation-termination marker scanned for in finalized
assistant turns. -/
def endMarker : String := "[END_CONVERSATION]"

/-- Arguments default `args.get("DPD", 0) if isinstance(args, dict) else 0`. -/
def dict_getDPD : Option (List (String × Int)) → Int
  | some d => (List.lookup "DPD" d).getD 0
  | none => 0

/-- The tool dispatch in `handle_response`: only `check_payment_status` is
defined; any other name yields the literal `"Unknown tool"`. -/
def dispatch_tool (name : String) (args : Option (List (String × Int))) : String :=
  if name == "check_payment_status" then check_payment_status (dict_getDPD args)
  else "Unknown tool"

/-- Overwriting insertion into a Python dict embedded as an association
list with unique keys. -/
def dict_set (m : List (String × String)) (k v : String) : List (String × String) :=
  (k, v) :: m.filter (fun p => p.1 != k)

/-- Deletion `del m[k]` on a Python dict embedded as an association list. -/
def dict_del (m : List (String × String)) (k : String) : List (String × String) :=
  m.filter (fun p => p.1 != k)

/-- The events of the upstream stream that `handle_response` dispatches on,
with the payload fields the handler reads.  Unknown event types fall
through to `otherEv`. -/
inductive RTEvent where
  | errorEv
  | inputTranscriptionCompleted (transcript : String)
  | responseAudioDelta (delta : String)
  | responseTextDelta (delta : String)
  | responseDone
  | outputItemAddedFunctionCall (call_id name : String)
  | functionCallArgumentsDone (call_id : String)
  | otherEv (eventType : String)
deriving DecidableEq, Repr

/-- One iteration of the `async for` loop in
`RealtimeClient.handle_response`.  Faithful points worth noting:
* `response.done` touches the state only when the accumulated transcript
  strips to something non-empty; in particular `_responding` is reset only
  in that branch;
* `conversation_done` is assigned (not or-ed) from the membership test of
  `endMarker` in the finalized text;
* on `function_call_arguments.done` the arguments are taken from
  `customer_data`, not parsed from the event; the info-log f-string calls
  `args.get` without the `isinstance` guard, so a non-dict `customer_data`
  raises there — before anything is sent — and the loop's outer `except`
  ends the loop (`loop_failed`), leaving the pending entry in place;
* `response.create` after a tool result is sent directly on the
  connection, bypassing the `_responding` guard, as in the source. -/
def handle_event (s : Session) (e : RTEvent) : Session × List OutAction :=
  match e with
  | .errorEv => (s, [])
  | .inputTranscriptionCompleted t =>
      let user_transcript := pyStrip t
      if user_transcript ≠ "" then
        let s1 := { s with chat_history := s.chat_history ++ [("user", user_transcript)] }
        create_response s1
      else (s, [])
  | .responseAudioDelta delta =>
      if s.has_audio_handler then (s, [.audioCallback (b64Decode delta.toList)]) else (s, [])
  | .responseTextDelta delta =>
      ({ s with transcript := s.transcript ++ delta }, [])
  | .responseDone =>
      if pyStrip s.transcript ≠ "" then
        let content := pyStrip s.transcript
        ({ s with
            chat_history := s.chat_history ++ [("assistant", content)]
            conversation_done := strContainsB content endMarker
            transcript := ""
            audio_buffer := []
            responding := false },
          if s.has_response_handler then [.textCallback content] else [])
      else (s, [])
  | .outputItemAddedFunctionCall cid name =>
      ({ s with pending_tool_calls := dict_set s.pending_tool_calls cid name }, [])
  | .functionCallArgumentsDone cid =>
      match List.lookup cid s.pending_tool_calls with
      | none => (s, [])
      | some name =>
          match s.customer_data with
          | none => ({ s with loop_failed := true }, [])
          | some args =>
              let result := dispatch_tool name (some args)
              ({ s with pending_tool_calls := dict_del s.pending_tool_calls cid },
                [.send (.functionCallOutput cid (jsonDumpsStr result)), .send .responseCreate])
  | .otherEv _ => (s, [])

/-- The whole event loop over a finite stream: events are handled strictly
in order; an uncaught handler exception ends the loop. -/
def run_events (s : Session) : List RTEvent → Session × List OutAction
  | [] => (s, [])
  | e :: rest =>
      let step := handle_event s e
      if step.fst.loop_failed then step
      else
        let tail := run_events step.fst rest
        (tail.fst, step.snd ++ tail.snd)

/-- Embeds `RealtimeClient.is_conversation_done`. -/
def is_conversation_done (s : Session) : Bool := s.conversation_done

/-! ## server.py — the WebSocket gateway receive loop -/

/-- Inbound client frames, discriminated by their JSON `kind` field. -/
inductive ClientFrame where
  | audioData (data : String)
  | stopAudio
  | otherFrame (kind : String)
deriving DecidableEq, Repr

/-- Calls the gateway makes on its `RealtimeClient` while handling inbound
frames (`websocket_endpoint`, the `kind` dispatch). -/
inductive ClientCall where
  | appendInputAudioCall (chunk : List Nat)
  | commitAudioCall
  | createResponseCall
deriving DecidableEq, Repr

/-- The `kind` dispatch of one inbound frame in `websocket_endpoint`:
`"AudioData"` is base64-decoded and forwarded through
`append_input_audio`; `"StopAudio"` triggers `commit_audio` then
`create_response`; other kinds fall through. -/
def websocket_frame_calls : ClientFrame → List ClientCall
  | .audioData d => [.appendInputAudioCall (b64Decode d.toList)]
  | .stopAudio => [.commitAudioCall, .createResponseCall]
  | .otherFrame _ => []

/-- The receive loop over a finite frame sequence, as the ordered list of
client calls it performs. -/
def websocket_receive_calls (frames : List ClientFrame) : List ClientCall :=
  (frames.map websocket_frame_calls).flatten

/-! ## Exceptions

The Python exception classes that decide control flow in the embedded
code. -/
inductive PyExc where
  | valueError (msg : String)
  | connectionError
  | authenticationError
  | apiError
  | nameError (name : String)
  | otherExc
deriving DecidableEq, Repr

/-- Python truthiness test `not x` on an optional string configuration
value: true when the variable is unset or empty. -/
def pyFalsy : Option String → Bool
  | none => true
  | some s => s == ""

/-- The four configuration values `RealtimeClient.connect` checks.  In the
source, deployment and API version are hard-coded module constants and the
key and endpoint come from the environment; all four go through the same
truthiness check. -/
structure AzureEnv where
  api_key : Option String
  endpoint : Option String
  api_version : Option String
  deployment : Option String
deriving DecidableEq, Repr

/-- Embeds `RealtimeClient.connect`, as seen by its caller: a missing or empty
required configuration value raises `ValueError("Missing one or more
required environment variables")`, which the `except` block logs and
re-raises; a failed upstream handshake re-raises whatever the SDK raised
(`otherExc` here); otherwise the connect succeeds. -/
def connect_result (cfg : AzureEnv) (handshakeOk : Bool) : Except PyExc Bool :=
  if pyFalsy cfg.endpoint || pyFalsy cfg.api_key ||
      pyFalsy cfg.api_version || pyFalsy cfg.deployment then
    Except.error (PyExc.valueError "Missing one or more required environment variables")
  else if handshakeOk then Except.ok true
  else Except.error PyExc.otherExc

/-! ## collekto_data_fetcher.py and the `start-call` endpoint

The REST calls are external; what matters to the claims is which of them
fail and with which exception class.  `run_ltfs_flow` initializes
`loan_data` and `disposition_data` to `[]` and overwrites them as the
three primary calls succeed; `AuthenticationError`/`APIError` from the
primary path fall into a fallback block that re-authenticates with the
module-level default credentials and then fetches `LOAN_ID` /
`CASE_LOAN_ID` — two module globals whose definitions are commented out in
the source, so that reference raises `NameError`, which the fallback's
`except (AuthenticationError, APIError)` does not catch. -/

/-- The Python values that can end up stored as call metadata. -/
inductive MetaVal where
  | emptyDict
  | rowDict
  | listEmpty
  | loanPayload
  | dispPayload
  | tup (a b : MetaVal)
deriving DecidableEq, Repr

/-- Which of the resolver's REST calls succeed. -/
structure ResolverEnv where
  primaryAuthOk : Bool
  primaryLoanOk : Bool
  primaryDispOk : Bool
  fallbackAuthOk : Bool
deriving DecidableEq, Repr

/-- The fallback block of `run_ltfs_flow`: if the default-credential
authentication fails it is caught and the current `loan_data` /
`disposition_data` are returned; if it succeeds, the next statement
references the undefined global `LOAN_ID` and raises `NameError`. -/
def ltfs_fallback (env : ResolverEnv) (loanCur dispCur : MetaVal) :
    Except PyExc (MetaVal × MetaVal) :=
  if env.fallbackAuthOk then Except.error (PyExc.nameError "LOAN_ID")
  else Except.ok (loanCur, dispCur)

/-- Embeds `run_ltfs_flow`: authenticate, fetch loan, fetch disposition; on an
`AuthenticationError`/`APIError` anywhere in that sequence, run the
fallback with whatever was already fetched. -/
def run_ltfs_flow (env : ResolverEnv) : Except PyExc (MetaVal × MetaVal) :=
  if !env.primaryAuthOk then ltfs_fallback env .listEmpty .listEmpty
  else if !env.primaryLoanOk then ltfs_fallback env .listEmpty .listEmpty
  else if !env.primaryDispOk then ltfs_fallback env .loanPayload .listEmpty
  else Except.ok (.loanPayload, .dispPayload)

/-- Outcome of the CSV lookup in `fetch_additional_customer_info`. -/
inductive MockLookup where
  | fileError
  | noMatch
  | matched
deriving DecidableEq, Repr

/-- Embeds `fetch_additional_customer_info`: a read error or a missing row both
give `{}`; a matched row gives its dict. -/
def fetch_additional_customer_info : MockLookup → MetaVal
  | .matched => .rowDict
  | _ => .emptyDict

/-- The parts of the `start-call` HTTP response the claims are about:
a 200-equivalent answer carries `status` and the session's stored
`call_metadata`; an uncaught exception in the handler is an error
response instead. -/
structure StartCallResult where
  status : String
  call_metadata : MetaVal
deriving DecidableEq, Repr

/-- The `start_call` endpoint: resolve extra customer info through the
mock CSV path or `run_ltfs_flow`, store the result as the session's
`call_metadata`, and answer with `status = "COMPLETED"`.  There is no
`try` around the resolver call, so an exception escaping it escapes the
endpoint. -/
def start_call (mockMode : Bool) (mock : MockLookup) (env : ResolverEnv) :
    Except PyExc StartCallResult :=
  let more_info : Except PyExc MetaVal :=
    if mockMode then Except.ok (fetch_additional_customer_info mock)
    else (run_ltfs_flow env).map (fun p => MetaVal.tup p.1 p.2)
  match more_info with
  | .error e => .error e
  | .ok m => .ok { status := "COMPLETED", call_metadata := m }

/-! ## get_system_prompt — the prompt builder -/

/-- The customer fields `get_system_prompt` reads from the session dict.
The EMI amount is embedded as a whole-rupee natural number; on such values
Python's `"{:,.2f}".format(float(emi))` is the comma-grouped integer
followed by `".00"`, which `formatEmi` reproduces exactly. -/
structure CustomerRecord where
  Debtor_Name : String
  Gender : String
  EMI_Amount : Nat
  Payment_Due_Date : String
  Product : String
deriving DecidableEq, Repr

/-- Insert thousands separators into a digit string. -/
def commaGroup (l : List Char) : List Char :=
  if _h : l.length ≤ 3 then l
  else commaGroup (l.take (l.length - 3)) ++ ',' :: l.drop (l.length - 3)
termination_by l.length
decreasing_by
  simp only [List.length_take]
  omega

/-- Python `"{:,.2f}".format(float(emi))` on a whole-rupee amount. -/
def formatEmi (emi : Nat) : String :=
  String.mk (commaGroup (Nat.toDigits 10 emi)) ++ ".00"

/-- The gender-specific honorific:
`"Mr." if gender.lower() == "male" else "Ms."`. -/
def salutationFor (gender : String) : String :=
  if pyLower gender == "male" then "Mr." else "Ms."

/-- The part of the instruction template before the first interpolation of
the salutation.  The fixed script lines that contain no interpolated field
are abridged; every interpolation point and its surrounding text is kept. -/
def promptDetailsPre (c : CustomerRecord) : String :=
  "\n\n    System Prompt (Bot Instructions)\n" ++
  "    You are a professional female voice bot calling on behalf of L&T Finance for Bucket - X Customers.\n" ++
  "    Your primary goal is to remind customers about their upcoming EMI payments, encourage timely payments,\n" ++
  "    and handle customer queries or objections effectively.\n" ++
  "    The customer is a Hindi speaker, so use Hindi for the conversation.\n" ++
  "    You have the following tools at your disposal - check_payment_status. Use it when the customer says that they have already done the payment.\n" ++
  "        CUSTOMER DETAILS (USE THESE IN CONVERSATION):\n" ++
  "        - Customer Name: " ++ c.Debtor_Name ++ "\n" ++
  "        - Gender: " ++ c.Gender ++ "\n" ++
  "        - Salutation: "

/-- The rest of the instruction template, parametrized by the salutation
string interpolated into it (the source interpolates the same local
`salutation` at every occurrence). -/
def promptDetailsPost (c : CustomerRecord) (salutation : String) : String :=
  "\n        - EMI Amount Due: ₹" ++ formatEmi c.EMI_Amount ++ "\n" ++
  "        - Loan Type: " ++ c.Product ++ "\n\n" ++
  "         IMPORTANT: Always use these specific details in your conversation:\n" ++
  "         - Always address the customer as " ++ salutation ++ " " ++ c.Debtor_Name ++ "\n" ++
  "         - Mention the exact EMI amount: ₹" ++ formatEmi c.EMI_Amount ++ "\n" ++
  "         - Reference the specific due date: " ++ c.Payment_Due_Date ++ "\n\n" ++
  "     2. Start your conversation with Customer Verification\n" ++
  "         Kya meri baat " ++ salutation ++ " " ++ c.Debtor_Name ++ " se ho rahi hai? Wait for customer to respond.\n" ++
  "         If Nahi: Kya main jaan sakti hoon ki aapka " ++ salutation ++ " " ++ c.Debtor_Name ++ " se kya sambandh hai?\n" ++
  "         12. If the user doesn't ask anything or replies with closing argument, end the conversation politely. End the whole conversation with the phrase [END_CONVERSATION]\n    "

/-- Embeds `get_system_prompt`: the instruction string with the customer fields
and the gender-derived salutation interpolated. -/
def get_system_prompt (customer : CustomerRecord) : String :=
  promptDetailsPre customer ++
    (salutationFor customer.Gender ++ promptDetailsPost customer (salutationFor customer.Gender))

/-! ## Concrete inputs used by witnesses and counterexamples -/

def demoCustomerDict : List (String × Int) := [("DPD", 3)]

/-- A freshly connected session (dict customer data, both callbacks). -/
def demoSession : Session := connect_session (initSession (some demoCustomerDict) true true)

/-- State of `demoSession` right after a `create_response` send. -/
def demoRespondingSession : Session := (create_response demoSession).fst

/-- A connected session with one pending tool call. -/
def demoToolSession : Session :=
  { connect_session (initSession (some [("DPD", 0)]) true true) with
      pending_tool_calls := [("call_1", "check_payment_status")] }

/-- A session whose streamed transcript ends with the termination marker. -/
def demoMarkerSession : Session :=
  { demoSession with transcript := "Dhanyavaad, namaste. [END_CONVERSATION]" }

/-- A session whose conversation-done flag is already true while a new
marker-free turn has been streamed. -/
def demoLatchSession : Session :=
  { demoSession with conversation_done := true, transcript := "Theek hai, main samajh gayi." }

def azureMissingEndpoint : AzureEnv :=
  { api_key := some "key123"
    endpoint := none
    api_version := some "2025-04-01-preview"
    deployment := some "gpt-4o-realtime-preview" }

/-- Primary authentication fails, default-credential authentication
succeeds. -/
def envPrimaryAuthFails : ResolverEnv :=
  { primaryAuthOk := false, primaryLoanOk := true, primaryDispOk := true, fallbackAuthOk := true }

/-- Both authentication attempts fail. -/
def envAllAuthFails : ResolverEnv :=
  { primaryAuthOk := false, primaryLoanOk := true, primaryDispOk := true, fallbackAuthOk := false }

def demoCustomerMale : CustomerRecord :=
  { Debtor_Name := "Ramesh Kumar", Gender := "Male", EMI_Amount := 3500
    Payment_Due_Date := "2025-06-03", Product := "Two Wheeler Loan" }

def demoCustomerFemale : CustomerRecord :=
  { Debtor_Name := "Sunita Devi", Gender := "Female", EMI_Amount := 3500
    Payment_Due_Date := "2025-06-03", Product := "Two Wheeler Loan" }

/-! ## Helper lemmas -/

/-- After `del m[k]`, a lookup of `k` finds nothing. -/
theorem lookup_dict_del (m : List (String × String)) (k : String) :
    List.lookup k (dict_del m k) = none := by
  induction m with
  | nil => rfl
  | cons p m ih =>
      rcases p with ⟨k', v⟩
      by_cases h : k' = k
      · have e : dict_del ((k', v) :: m) k = dict_del m k := by
          simp [dict_del, List.filter_cons, h]
        rw [e]
        exact ih
      · have e : dict_del ((k', v) :: m) k = (k', v) :: dict_del m k := by
          simp [dict_del, List.filter_cons, h]
        have hkk : (k == k') = false := beq_eq_false_iff_ne.mpr (Ne.symm h)
        rw [e]
        simp [List.lookup, hkk, ih]

/-! ## The claims -/

/-- Claim C1, counterexample to the claim as stated: in a session that has
an outstanding `create_response` (responding flag true) and an empty
transcript buffer, processing a `response.done` event leaves the
responding flag true — the flag is not "false again after any
response-done event", because the reset sits inside the non-empty
transcript branch. -/
theorem c1_counterexample :
    demoRespondingSession.responding = true ∧
    (handle_event demoRespondingSession RTEvent.responseDone).fst.responding = true := by
  constructor <;> rfl

/-- Claim C1 (amended): the responding flag is false at construction,
`create_response` while responding sends nothing and changes nothing, and
a `response.done` event whose stripped transcript is non-empty resets the
flag to false.  (A `response.done` with an empty stripped transcript
leaves the flag as it was.) -/
theorem c1_responding_flag :
    (∀ cd rh ah, (initSession cd rh ah).responding = false) ∧
    (∀ s : Session, s.responding = true → create_response s = (s, [])) ∧
    (∀ s : Session, (pyStrip s.transcript) ≠ "" →
      (handle_event s RTEvent.responseDone).fst.responding = false) := by
  refine ⟨fun _ _ _ => rfl, fun s h => ?_, fun s h => ?_⟩
  · simp [create_response, h]
  · simp [handle_event, h]

/-- Claim C1, witness: the amended statement evaluated on concrete
sessions. -/
theorem c1_witness :
    (initSession (some demoCustomerDict) true true).responding = false ∧
    demoRespondingSession.responding = true ∧
    create_response demoRespondingSession = (demoRespondingSession, []) ∧
    (pyStrip demoMarkerSession.transcript) ≠ "" ∧
    (handle_event demoMarkerSession RTEvent.responseDone).fst.responding = false :=
  ⟨c1_responding_flag.1 (some demoCustomerDict) true true, rfl,
    c1_responding_flag.2.1 demoRespondingSession rfl, by decide,
    c1_responding_flag.2.2 demoMarkerSession (by decide)⟩

/-- Claim C2: for a `response.done` event whose stripped transcript is
non-empty, the conversation-done flag afterwards equals the substring test
for `[END_CONVERSATION]` on that finalized text; in particular the flag is
false when the marker is absent. -/
theorem c2_end_marker (s : Session) (h : (pyStrip s.transcript) ≠ "") :
    ((handle_event s RTEvent.responseDone).fst.conversation_done
      = strContainsB (pyStrip s.transcript) endMarker) ∧
    (strContainsB (pyStrip s.transcript) endMarker = false →
      (handle_event s RTEvent.responseDone).fst.conversation_done = false) := by
  constructor
  · simp [handle_event, h]
  · intro hm
    simp [handle_event, h, hm]

/-- Claim C2, witness: the marker-carrying concrete session comes out with
the flag set. -/
theorem c2_witness :
    (pyStrip demoMarkerSession.transcript) ≠ "" ∧
    ((handle_event demoMarkerSession RTEvent.responseDone).fst.conversation_done
      = strContainsB (pyStrip demoMarkerSession.transcript) endMarker) ∧
    strContainsB (pyStrip demoMarkerSession.transcript) endMarker = true :=
  ⟨by decide, (c2_end_marker demoMarkerSession (by decide)).1, by decide⟩

/-- Claim C3: an `AudioData` frame followed by a `StopAudio` frame makes
the gateway receive loop perform exactly one append-audio call, then one
commit-audio call, then one create-response call, in that order. -/
theorem c3_audio_then_stop (d : String) :
    websocket_receive_calls [ClientFrame.audioData d, ClientFrame.stopAudio]
      = [ClientCall.appendInputAudioCall (b64Decode d.toList),
         ClientCall.commitAudioCall, ClientCall.createResponseCall] := rfl

/-- Claim C4: an `AudioData` frame whose base64 payload encodes `bytes`,
handled while the session is connected, issues exactly one upstream
append-audio send; the payload it carries is the re-encoding of exactly
the decoded bytes, and decode-after-encode loses no byte. -/
theorem c4_audio_roundtrip (bytes : List Nat) (h : ∀ b ∈ bytes, b < 256) (s : Session)
    (hc : s.connection = true) :
    append_input_audio s (b64Decode (b64Encode bytes))
      = (s, [OutAction.send (UpSend.audioAppend (b64Encode bytes))]) ∧
    b64Decode (b64Encode bytes) = bytes := by
  have hr := b64_decode_encode bytes h
  refine ⟨?_, hr⟩
  rw [hr]
  simp [append_input_audio, hc]

/-- Claim C4, witness: the round trip on the bytes of `"Mic"`. -/
theorem c4_witness :
    demoSession.connection = true ∧
    append_input_audio demoSession (b64Decode (b64Encode [77, 105, 99]))
      = (demoSession, [OutAction.send (UpSend.audioAppend (b64Encode [77, 105, 99]))]) ∧
    b64Decode (b64Encode [77, 105, 99]) = [77, 105, 99] :=
  ⟨rfl, (c4_audio_roundtrip [77, 105, 99] (by decide) demoSession rfl).1,
    (c4_audio_roundtrip [77, 105, 99] (by decide) demoSession rfl).2⟩

/-- Claim C5: at the failing input (non-mock mode, primary authentication
fails, default-credential authentication succeeds) the resolver raises
`NameError("LOAN_ID")` — the fallback fetch references a global whose
definition is commented out — and `start_call` propagates it instead of
answering 200 with empty metadata.  Even when the failure is fully caught
(both authentications fail), the stored metadata is the tuple
`([], [])`, not an empty object. -/
theorem c5_resolver_failure_not_degraded :
    run_ltfs_flow envPrimaryAuthFails = Except.error (PyExc.nameError "LOAN_ID") ∧
    start_call false MockLookup.matched envPrimaryAuthFails
      = Except.error (PyExc.nameError "LOAN_ID") ∧
    start_call false MockLookup.matched envAllAuthFails
      = Except.ok (StartCallResult.mk "COMPLETED"
          (MetaVal.tup MetaVal.listEmpty MetaVal.listEmpty)) ∧
    MetaVal.tup MetaVal.listEmpty MetaVal.listEmpty ≠ MetaVal.emptyDict := by
  refine ⟨rfl, rfl, rfl, by decide⟩

/-- Claim C6, counterexample to the claim as stated: with the endpoint
absent, `connect` raises `ValueError`, not `ConnectionError`. -/
theorem c6_counterexample :
    connect_result azureMissingEndpoint true
      = Except.error (PyExc.valueError "Missing one or more required environment variables") ∧
    connect_result azureMissingEndpoint true ≠ Except.error PyExc.connectionError := by
  refine ⟨rfl, fun h => ?_⟩
  rw [show connect_result azureMissingEndpoint true
      = Except.error (PyExc.valueError "Missing one or more required environment variables")
    from rfl] at h
  exact PyExc.noConfusion (Except.error.inj h)

/-- Claim C6 (amended): if any required configuration value (endpoint,
credential, API version, deployment id) is absent or empty, `connect`
fails the caller by raising a `ValueError`. -/
theorem c6_missing_config_raises (cfg : AzureEnv) (hs : Bool)
    (h : pyFalsy cfg.endpoint = true ∨ pyFalsy cfg.api_key = true ∨
      pyFalsy cfg.api_version = true ∨ pyFalsy cfg.deployment = true) :
    connect_result cfg hs
      = Except.error (PyExc.valueError "Missing one or more required environment variables") := by
  rcases h with h | h | h | h <;> simp [connect_result, h]

/-- Claim C6, witness: the amended statement at the concrete
endpoint-missing configuration. -/
theorem c6_witness :
    pyFalsy azureMissingEndpoint.endpoint = true ∧
    connect_result azureMissingEndpoint false
      = Except.error (PyExc.valueError "Missing one or more required environment variables") :=
  ⟨rfl, c6_missing_config_raises azureMissingEndpoint false (Or.inl rfl)⟩

/-- Claim C7: in a session whose stored customer record is a dict, an
arguments-done event for a pending call-id removes the pending entry
(exactly once — afterwards the id is gone) right after sending the tool
result and the follow-up response request; a second consecutive
arguments-done event for the same id, like any arguments-done event whose
id is not pending, changes nothing and sends nothing. -/
theorem c7_pending_tool_call_once (s : Session) (cid : String) (d : List (String × Int))
    (hd : s.customer_data = some d) :
    (List.lookup cid s.pending_tool_calls = none →
      handle_event s (RTEvent.functionCallArgumentsDone cid) = (s, [])) ∧
    (∀ name, List.lookup cid s.pending_tool_calls = some name →
      List.lookup cid
          (handle_event s (RTEvent.functionCallArgumentsDone cid)).fst.pending_tool_calls
        = none ∧
      (handle_event s (RTEvent.functionCallArgumentsDone cid)).snd
        = [OutAction.send (UpSend.functionCallOutput cid
            (jsonDumpsStr (dispatch_tool name (some d)))),
           OutAction.send UpSend.responseCreate] ∧
      handle_event (handle_event s (RTEvent.functionCallArgumentsDone cid)).fst
          (RTEvent.functionCallArgumentsDone cid)
        = ((handle_event s (RTEvent.functionCallArgumentsDone cid)).fst, [])) := by
  constructor
  · intro h
    simp [handle_event, h]
  · intro name hn
    refine ⟨?_, ?_, ?_⟩
    · simp only [handle_event, hn, hd]
      exact lookup_dict_del _ _
    · simp [handle_event, hn, hd]
    · simp [handle_event, hn, hd, lookup_dict_del]

/-- Claim C7, witness: the statement evaluated on a session with a pending
`check_payment_status` call and on one with no pending calls. -/
theorem c7_witness :
    handle_event demoSession (RTEvent.functionCallArgumentsDone "call_9")
      = (demoSession, []) ∧
    (List.lookup "call_1"
        (handle_event demoToolSession
          (RTEvent.functionCallArgumentsDone "call_1")).fst.pending_tool_calls
      = none ∧
    (handle_event demoToolSession (RTEvent.functionCallArgumentsDone "call_1")).snd
      = [OutAction.send (UpSend.functionCallOutput "call_1"
          (jsonDumpsStr (dispatch_tool "check_payment_status" (some [("DPD", 0)])))),
         OutAction.send UpSend.responseCreate] ∧
    handle_event (handle_event demoToolSession
        (RTEvent.functionCallArgumentsDone "call_1")).fst
        (RTEvent.functionCallArgumentsDone "call_1")
      = ((handle_event demoToolSession (RTEvent.functionCallArgumentsDone "call_1")).fst, [])) :=
  ⟨(c7_pending_tool_call_once demoSession "call_9" demoCustomerDict rfl).1 rfl,
    (c7_pending_tool_call_once demoToolSession "call_1" [("DPD", 0)] rfl).2
      "check_payment_status" rfl⟩

/-- Claim C8: `check_payment_status` answers `"payment completed"` exactly
at zero days past due and `"payment not completed"` at every other value;
dispatch of any other tool name yields `"Unknown tool"`. -/
theorem c8_check_payment_status :
    check_payment_status 0 = "payment completed" ∧
    (∀ n : Int, n ≠ 0 → check_payment_status n = "payment not completed") ∧
    (∀ (name : String) (args : Option (List (String × Int))),
      name ≠ "check_payment_status" → dispatch_tool name args = "Unknown tool") := by
  refine ⟨rfl, fun n hn => ?_, fun name args hn => ?_⟩
  · simp [check_payment_status, hn]
  · simp [dispatch_tool, hn]

/-- Claim C8, witness: the three answers at concrete inputs. -/
theorem c8_witness :
    check_payment_status 0 = "payment completed" ∧
    check_payment_status 7 = "payment not completed" ∧
    dispatch_tool "transfer_funds" (some demoCustomerDict) = "Unknown tool" :=
  ⟨c8_check_payment_status.1,
    c8_check_payment_status.2.1 7 (by decide),
    c8_check_payment_status.2.2 "transfer_funds" (some demoCustomerDict) (by decide)⟩

/-- Claim C9: a customer whose gender lowercases to `"male"` gets
instructions interpolating the honorific `"Mr."` at the salutation slot
and at every other use of the salutation; any other gender value gets
`"Ms."`. -/
theorem c9_salutation (c : CustomerRecord) :
    (pyLower c.Gender = "male" →
      get_system_prompt c
        = promptDetailsPre c ++ ("Mr." ++ promptDetailsPost c "Mr.")) ∧
    (pyLower c.Gender ≠ "male" →
      get_system_prompt c
        = promptDetailsPre c ++ ("Ms." ++ promptDetailsPost c "Ms.")) := by
  constructor
  · intro h
    simp [get_system_prompt, salutationFor, h]
  · intro h
    simp [get_system_prompt, salutationFor, h]

/-- Claim C9, witness: the two honorifics on concrete customer records,
one with gender `"Male"` (mixed case) and one with `"Female"`. -/
theorem c9_witness :
    pyLower demoCustomerMale.Gender = "male" ∧
    get_system_prompt demoCustomerMale
      = promptDetailsPre demoCustomerMale
          ++ ("Mr." ++ promptDetailsPost demoCustomerMale "Mr.") ∧
    get_system_prompt demoCustomerFemale
      = promptDetailsPre demoCustomerFemale
          ++ ("Ms." ++ promptDetailsPost demoCustomerFemale "Ms.") :=
  ⟨by decide, (c9_salutation demoCustomerMale).1 (by decide),
    (c9_salutation demoCustomerFemale).2 (by decide)⟩

/-- Claim C10: the conversation-done flag is recomputed, not latched: a
session whose flag is true, on finalizing a non-empty turn that lacks the
marker, comes out with the flag false again. -/
theorem c10_done_flag_recomputed (s : Session) (h1 : s.conversation_done = true)
    (h2 : (pyStrip s.transcript) ≠ "")
    (h3 : strContainsB (pyStrip s.transcript) endMarker = false) :
    is_conversation_done (handle_event s RTEvent.responseDone).fst = false := by
  simp [is_conversation_done, handle_event, h2, h3]

/-- Claim C10, witness: a concrete session with the flag already true is
reset by a marker-free finalized turn. -/
theorem c10_witness :
    demoLatchSession.conversation_done = true ∧
    (pyStrip demoLatchSession.transcript) ≠ "" ∧
    strContainsB (pyStrip demoLatchSession.transcript) endMarker = false ∧
    is_conversation_done (handle_event demoLatchSession RTEvent.responseDone).fst = false :=
  ⟨rfl, by decide, by decide,
    c10_done_flag_recomputed demoLatchSession rfl (by decide) (by decide)⟩

end VoiceBot
